import Mathlib

/-!
Verification development for the `ExtendedModelResource` class
(`extendedmodelresource.py`): a tastypie `ModelResource` extension adding
nested sub-resources, a configurable detail-identifier pattern, and
lookup-kwargs cleanup through the CRUD pipeline.

The embedding below models Python keyword-argument dictionaries as
association lists `List (String × V)` (first binding wins on lookup, as
Python dictionaries have unique keys), and models the external Django ORM
filter call concretely: an object is an attribute map, a filter entry
matches by (possibly coerced) equality, and a type-mismatched value for an
integer field raises `ValueError` (modelled as an `Except` error).
External collaborators (the base tastypie implementations, `build_filters`,
`generate_cache_key`, the authorization hooks) are taken as function
parameters.
-/

namespace ExtendedModelResource

/-- A Python keyword-arguments dictionary, modelled as an association list
with the usual first-match lookup. -/
abbrev Kwargs (V : Type) := List (String × V)

/-- Key-presence test, modelling Python's `key in dict`. -/
def containsKey {V : Type} (d : Kwargs V) (k : String) : Bool :=
  (d.lookup k).isSome

/-- `del d[k]`: drop every binding of key `k`. -/
def dictDel {V : Type} (d : Kwargs V) (k : String) : Kwargs V :=
  d.filter (fun p => p.1 != k)

/-- `d[k] = v`: replace any binding of `k` by `v`. -/
def dictSet {V : Type} (d : Kwargs V) (k : String) (v : V) : Kwargs V :=
  dictDel d k ++ [(k, v)]

/-- `d.update(e)`: bindings of `e` override those of `d`. -/
def dictUpdate {V : Type} (d e : Kwargs V) : Kwargs V :=
  d.filter (fun p => !(containsKey e p.1)) ++ e

/-- The synthetic bookkeeping keys deleted by
`real_remove_api_resource_names`, in source order. -/
def syntheticKeys : List String :=
  ["api_name", "resource_name", "related_manager", "child_object",
   "parent_resource", "nested_name", "parent_object"]

/-- The overridden public `remove_api_resource_names`: returns
`url_dict.copy()`, i.e. it removes nothing. -/
def remove_api_resource_names {V : Type} (url_dict : Kwargs V) : Kwargs V :=
  url_dict

/-- `real_remove_api_resource_names`: deletes `api_name`, `resource_name`
and the five synthetic nested-dispatch keys from a copy of the dict. -/
def real_remove_api_resource_names {V : Type} (url_dict : Kwargs V) : Kwargs V :=
  url_dict.filter (fun p => !(syntheticKeys.contains p.1))

/-! ### Association-list lemmas -/

theorem lookup_append_left {V : Type} {l1 : Kwargs V} (l2 : Kwargs V)
    {k : String} {w : V} (h : l1.lookup k = some w) :
    (l1 ++ l2).lookup k = some w := by
  induction l1 with
  | nil => simp [List.lookup] at h
  | cons hd tl ih =>
    obtain ⟨a, b⟩ := hd
    rw [List.cons_append, List.lookup_cons] at *
    cases hbeq : (k == a) with
    | true => simp only [hbeq] at h; exact h
    | false => simp only [hbeq] at h; exact ih h

theorem lookup_append_of_none {V : Type} {l1 : Kwargs V} (l2 : Kwargs V)
    {k : String} (h : l1.lookup k = none) :
    (l1 ++ l2).lookup k = l2.lookup k := by
  induction l1 with
  | nil => rfl
  | cons hd tl ih =>
    obtain ⟨a, b⟩ := hd
    rw [List.cons_append, List.lookup_cons] at *
    cases hbeq : (k == a) with
    | true => simp only [hbeq] at h; simp at h
    | false => simp only [hbeq] at h; exact ih h

theorem lookup_filter_of_none {V : Type} (p : String × V → Bool)
    {d : Kwargs V} {k : String} (h : d.lookup k = none) :
    (d.filter p).lookup k = none := by
  induction d with
  | nil => rfl
  | cons hd tl ih =>
    obtain ⟨a, b⟩ := hd
    rw [List.lookup_cons] at h
    cases hbeq : (k == a) with
    | true => simp only [hbeq] at h; simp at h
    | false =>
      simp only [hbeq] at h
      rw [List.filter_cons]
      cases hp : p (a, b) with
      | true =>
        rw [if_pos rfl, List.lookup_cons, hbeq]
        exact ih h
      | false =>
        rw [if_neg (by simp [hp])]
        exact ih h

theorem lookup_filter_dropped {V : Type} (p : String × V → Bool)
    (d : Kwargs V) (k : String) (h : ∀ v, p (k, v) = false) :
    (d.filter p).lookup k = none := by
  induction d with
  | nil => rfl
  | cons hd tl ih =>
    obtain ⟨a, b⟩ := hd
    rw [List.filter_cons]
    cases hp : p (a, b) with
    | true =>
      have hne : (k == a) = false := by
        cases hbeq : (k == a) with
        | false => rfl
        | true =>
          have hk : k = a := by simpa using hbeq
          rw [← hk, h b] at hp
          exact absurd hp (by simp)
      rw [if_pos rfl, List.lookup_cons, hne]
      exact ih
    | false =>
      rw [if_neg (by simp [hp])]
      exact ih

theorem lookup_filter_kept {V : Type} (p : String × V → Bool)
    (d : Kwargs V) (k : String) (h : ∀ v, p (k, v) = true) :
    (d.filter p).lookup k = d.lookup k := by
  induction d with
  | nil => rfl
  | cons hd tl ih =>
    obtain ⟨a, b⟩ := hd
    rw [List.filter_cons]
    cases hbeq : (k == a) with
    | true =>
      have hk : k = a := by simpa using hbeq
      rw [if_pos (by rw [← hk]; exact h b), List.lookup_cons, List.lookup_cons, hbeq]
    | false =>
      cases hp : p (a, b) with
      | true =>
        rw [if_pos rfl, List.lookup_cons, List.lookup_cons, hbeq]
        exact ih
      | false =>
        rw [if_neg (by simp [hp]), List.lookup_cons, hbeq]
        exact ih

theorem lookup_dictDel_self {V : Type} (d : Kwargs V) (k : String) :
    (dictDel d k).lookup k = none :=
  lookup_filter_dropped _ d k (fun v => by simp)

theorem lookup_dictDel_ne {V : Type} (d : Kwargs V) {k k2 : String}
    (h : k2 ≠ k) : (dictDel d k).lookup k2 = d.lookup k2 :=
  lookup_filter_kept _ d k2 (fun v => by simpa using h)

theorem lookup_dictSet_self {V : Type} (d : Kwargs V) (k : String) (v : V) :
    (dictSet d k v).lookup k = some v := by
  unfold dictSet
  rw [lookup_append_of_none _ (lookup_dictDel_self d k), List.lookup_cons]
  simp

theorem lookup_dictSet_ne {V : Type} (d : Kwargs V) {k k2 : String} (v : V)
    (h : k2 ≠ k) : (dictSet d k v).lookup k2 = d.lookup k2 := by
  unfold dictSet
  cases hv : d.lookup k2 with
  | some w =>
    exact lookup_append_left _ (by rw [lookup_dictDel_ne d h, hv])
  | none =>
    rw [lookup_append_of_none _ (by rw [lookup_dictDel_ne d h, hv]), List.lookup_cons]
    have hb : (k2 == k) = false := beq_eq_false_iff_ne.mpr h
    rw [hb]
    rfl

theorem lookup_dictUpdate_none {V : Type} {d e : Kwargs V} {k : String}
    (hd : d.lookup k = none) (he : e.lookup k = none) :
    (dictUpdate d e).lookup k = none := by
  unfold dictUpdate
  rw [lookup_append_of_none _ (lookup_filter_of_none _ hd)]
  exact he

theorem filter_idem {α : Type} (p : α → Bool) (l : List α) :
    (l.filter p).filter p = l.filter p := by
  induction l with
  | nil => rfl
  | cons a l ih =>
    rw [List.filter_cons]
    cases hp : p a with
    | true => rw [if_pos rfl, List.filter_cons, if_pos hp, ih]
    | false => rw [if_neg (by simp [hp]), ih]

/-- Stripping is idempotent. -/
theorem real_remove_idem {V : Type} (d : Kwargs V) :
    real_remove_api_resource_names (real_remove_api_resource_names d)
      = real_remove_api_resource_names d :=
  filter_idem _ d

/-- A synthetic key never survives `real_remove_api_resource_names`. -/
theorem real_remove_lookup_none {V : Type} (d : Kwargs V) {k : String}
    (hk : k ∈ syntheticKeys) :
    (real_remove_api_resource_names d).lookup k = none := by
  apply lookup_filter_dropped
  intro v
  have hc : syntheticKeys.contains k = true := List.elem_iff.mpr hk
  show (!(syntheticKeys.contains k)) = false
  rw [hc]
  rfl

/-- A non-synthetic key is untouched by `real_remove_api_resource_names`. -/
theorem real_remove_lookup_other {V : Type} (d : Kwargs V) {k : String}
    (hk : k ∉ syntheticKeys) :
    (real_remove_api_resource_names d).lookup k = d.lookup k := by
  apply lookup_filter_kept
  intro v
  have hc : syntheticKeys.contains k = false := by
    cases hb : syntheticKeys.contains k with
    | false => rfl
    | true => exact absurd (List.elem_iff.mp hb) hk
  show (!(syntheticKeys.contains k)) = true
  rw [hc]
  rfl

/-! ### Generic CRUD wrappers

The base tastypie implementations (`super().obj_create` and friends) are
external collaborators, taken as function parameters.  Each wrapper below is
the body of the corresponding method of `ExtendedModelResource`.
-/

/-- `obj_create`: strips the kwargs, then delegates to the base
implementation. -/
def obj_create {V B R : Type} (superObjCreate : B → Kwargs V → R)
    (bundle : B) (kwargs : Kwargs V) : R :=
  superObjCreate bundle (real_remove_api_resource_names kwargs)

/-- `obj_update`: strips the kwargs, then delegates (passing
`skip_errors` through). -/
def obj_update {V B R : Type} (superObjUpdate : B → Bool → Kwargs V → R)
    (bundle : B) (skip_errors : Bool) (kwargs : Kwargs V) : R :=
  superObjUpdate bundle skip_errors (real_remove_api_resource_names kwargs)

/-- `obj_delete_list`: strips the kwargs, then delegates. -/
def obj_delete_list {V B R : Type} (superObjDeleteList : B → Kwargs V → R)
    (bundle : B) (kwargs : Kwargs V) : R :=
  superObjDeleteList bundle (real_remove_api_resource_names kwargs)

/-- `obj_delete_list_for_update`: strips the kwargs, then delegates. -/
def obj_delete_list_for_update {V B R : Type}
    (superDeleteListForUpdate : B → Kwargs V → R)
    (bundle : B) (kwargs : Kwargs V) : R :=
  superDeleteListForUpdate bundle (real_remove_api_resource_names kwargs)

/-- `obj_delete`: strips the kwargs, then delegates. -/
def obj_delete {V B R : Type} (superObjDelete : B → Kwargs V → R)
    (bundle : B) (kwargs : Kwargs V) : R :=
  superObjDelete bundle (real_remove_api_resource_names kwargs)

/-- The `NotImplementedError` raised by the nested list-mutation guards. -/
inductive NotImplementedSignal where
  | notImplemented
deriving DecidableEq, Repr

/-- `post_list`: refuses in a nested context, otherwise delegates the
kwargs unchanged to the base implementation. -/
def post_list {V R : Type} (superPostList : Kwargs V → R)
    (kwargs : Kwargs V) : Except NotImplementedSignal R :=
  if containsKey kwargs "parent_resource" then
    Except.error NotImplementedSignal.notImplemented
  else
    Except.ok (superPostList kwargs)

/-- `put_list`: refuses in a nested context, otherwise delegates the
kwargs unchanged to the base implementation. -/
def put_list {V R : Type} (superPutList : Kwargs V → R)
    (kwargs : Kwargs V) : Except NotImplementedSignal R :=
  if containsKey kwargs "parent_resource" then
    Except.error NotImplementedSignal.notImplemented
  else
    Except.ok (superPutList kwargs)

/-- `patch_list`: refuses in a nested context, otherwise delegates the
kwargs unchanged to the base implementation. -/
def patch_list {V R : Type} (superPatchList : Kwargs V → R)
    (kwargs : Kwargs V) : Except NotImplementedSignal R :=
  if containsKey kwargs "parent_resource" then
    Except.error NotImplementedSignal.notImplemented
  else
    Except.ok (superPatchList kwargs)

/-! ### Concrete model of the external ORM layer

Django models and querysets are external collaborators.  We model an object
as an attribute map from field names to primitive values, and the queryset
`filter(**kwargs)` call concretely: a string value filtered against an
integer field is coerced with `int(...)`, raising `ValueError` (the
`Except.error` case) when the string is not numeric.
-/

/-- Primitive Python values stored in model fields. -/
inductive Prim where
  | pint : Int → Prim
  | pstr : String → Prim
  | pnone : Prim
deriving DecidableEq, Repr

/-- A model object: an attribute map. -/
abbrev Obj := List (String × Prim)

/-- Values carried in resolved URL kwargs during (nested) dispatch. -/
inductive KV where
  | prim : Prim → KV
  | vobj : Obj → KV
  | vmgr : List (String × Prim) → KV
  | vres : KV
deriving DecidableEq, Repr

/-- Model field types, used to decide coercion of filter values. -/
inductive FieldTy where
  | tint
  | tstr
deriving DecidableEq, Repr

/-- The model declaration: field name to field type. -/
abbrev Schema := List (String × FieldTy)

/-- Decimal digit run to its numeric value (`none` when empty or
non-numeric). -/
def parseDigits (cs : List Char) : Option Nat :=
  if cs = [] then none
  else if cs.all Char.isDigit then
    some (cs.foldl (fun n c => 10 * n + (c.toNat - 48)) 0)
  else none

/-- Python `int(s)` on a decimal literal (optional sign), the coercion the
ORM applies to a string filtered against an integer field; `none` is the
`ValueError` case. -/
def parseIntLit : List Char → Option Int
  | '-' :: cs => (parseDigits cs).map (fun n => -(n : Int))
  | cs => (parseDigits cs).map (fun n => (n : Int))

/-- Does filtering field `k` by value `v` raise `ValueError`?  (An integer
field filtered by a non-numeric string.) -/
def malformedEntry (schema : Schema) (k : String) (v : KV) : Bool :=
  match schema.lookup k, v with
  | some FieldTy.tint, KV.prim (Prim.pstr s) => (parseIntLit s.data).isNone
  | _, _ => false

/-- Does any entry of the filter kwargs raise `ValueError`? -/
def malformedKwargs (schema : Schema) (kw : Kwargs KV) : Bool :=
  kw.any (fun p => malformedEntry schema p.1 p.2)

/-- Coerce a filter value to the primitive compared against the field. -/
def coerceVal (schema : Schema) (k : String) (v : KV) : Option Prim :=
  match schema.lookup k, v with
  | some FieldTy.tint, KV.prim (Prim.pstr s) => (parseIntLit s.data).map Prim.pint
  | _, KV.prim p => some p
  | _, _ => none

/-- Does object `o` satisfy the single filter entry `k = v`? -/
def matchesEntry (schema : Schema) (o : Obj) (k : String) (v : KV) : Bool :=
  match coerceVal schema k v with
  | some p => o.lookup k == some p
  | none => false

/-- Does object `o` satisfy every entry of the filter kwargs? -/
def matchesAll (schema : Schema) (kw : Kwargs KV) (o : Obj) : Bool :=
  kw.all (fun p => matchesEntry schema o p.1 p.2)

/-- The queryset `filter(**kw)` call: `ValueError` on malformed values,
otherwise the sub-list of matching objects. -/
def ormFilter (schema : Schema) (objs : List Obj) (kw : Kwargs KV) :
    Except Unit (List Obj) :=
  if malformedKwargs schema kw then Except.error ()
  else Except.ok (objs.filter (matchesAll schema kw))

/-- Lift a related manager's `core_filters` (primitive-valued) to filter
kwargs. -/
def coreFiltersKV (cf : List (String × Prim)) : Kwargs KV :=
  cf.map (fun p => (p.1, KV.prim p.2))

/-! ### The lookup operations of `ExtendedModelResource` -/

/-- Exceptions raised by the detail lookups: the model's `DoesNotExist`,
Django's `MultipleObjectsReturned`, and tastypie's `NotFound` (raised when
a `ValueError` is caught). -/
inductive GetErr where
  | doesNotExist
  | multipleObjectsReturned
  | notFound
deriving DecidableEq, Repr

/-- `obj_get`: filters the object list by the stripped kwargs, then raises
`DoesNotExist` on zero matches, `MultipleObjectsReturned` on more than one,
and returns the single match otherwise; a `ValueError` during filtering is
re-raised as `NotFound`.  (`authorized_read_detail` is an external
collaborator modelled as a pass-through.) -/
def obj_get (schema : Schema) (objs : List Obj) (kwargs : Kwargs KV) :
    Except GetErr Obj :=
  match ormFilter schema objs (real_remove_api_resource_names kwargs) with
  | Except.error _ => Except.error GetErr.notFound
  | Except.ok l =>
    if l.length ≤ 0 then Except.error GetErr.doesNotExist
    else if l.length > 1 then Except.error GetErr.multipleObjectsReturned
    else Except.ok (l.headD [])

/-- `obj_get_no_auth_check`: identical to `obj_get` except that the kwargs
are passed to the filter call unmodified (no stripping) and no
authorization check happens. -/
def obj_get_no_auth_check (schema : Schema) (objs : List Obj)
    (kwargs : Kwargs KV) : Except GetErr Obj :=
  match ormFilter schema objs kwargs with
  | Except.error _ => Except.error GetErr.notFound
  | Except.ok l =>
    if l.length ≤ 0 then Except.error GetErr.doesNotExist
    else if l.length > 1 then Except.error GetErr.multipleObjectsReturned
    else Except.ok (l.headD [])

/-- `get_via_uri_no_auth_check`, after URL resolution (the resolver is
external; `resolvedKwargs` are its captures): passes the kwargs through the
overridden, no-op `remove_api_resource_names` into
`obj_get_no_auth_check`. -/
def get_via_uri_no_auth_check (schema : Schema) (objs : List Obj)
    (resolvedKwargs : Kwargs KV) : Except GetErr Obj :=
  obj_get_no_auth_check schema objs (remove_api_resource_names resolvedKwargs)

/-- Outcomes of `obj_get_list`: `http.BadRequest` raised on `ValueError`,
or an uncaught `AttributeError` if the `related_manager` value has no
`core_filters` (never the case in real nested dispatch). -/
inductive ListErr where
  | badRequest
  | attrError
deriving DecidableEq, Repr

/-- The `filters` dictionary built by `obj_get_list`: a mutable copy of the
request's GET parameters updated with the stripped kwargs. -/
def obj_get_list_filters {V : Type} (getParams kwargs : Kwargs V) : Kwargs V :=
  dictUpdate getParams (real_remove_api_resource_names kwargs)

/-- `obj_get_list`: builds the filters from the GET parameters and the
stripped kwargs, applies them (`build_filters` and `authorized_read_list`
are external collaborators), additionally applies the related manager's
`core_filters` when called in a nested list context, and converts a
`ValueError` into `http.BadRequest`. -/
def obj_get_list (schema : Schema) (objs : List Obj)
    (buildFilters : Kwargs KV → Kwargs KV)
    (authorizedReadList : List Obj → List Obj)
    (getParams : Kwargs KV) (kwargs : Kwargs KV) :
    Except ListErr (List Obj) :=
  match ormFilter schema objs (buildFilters (obj_get_list_filters getParams kwargs)) with
  | Except.error _ => Except.error ListErr.badRequest
  | Except.ok base_object_list =>
    if containsKey kwargs "related_manager" then
      match kwargs.lookup "related_manager" with
      | some (KV.vmgr core_filters) =>
        match ormFilter schema base_object_list (coreFiltersKV core_filters) with
        | Except.error _ => Except.error ListErr.badRequest
        | Except.ok narrowed => Except.ok (authorizedReadList narrowed)
      | _ => Except.error ListErr.attrError
    else Except.ok (authorizedReadList base_object_list)

/-- A tastypie bundle; only the current object matters to this module. -/
structure Bundle where
  obj : Option Obj
deriving DecidableEq, Repr

/-- What the local variable `bundle` of `cached_obj_get` holds when
returned: the input bundle (cache hit) or the object fetched by `obj_get`
(cache miss). -/
inductive BundleOrObj where
  | bnd : Bundle → BundleOrObj
  | obj : Obj → BundleOrObj
deriving DecidableEq, Repr

/-- The framework cache, keyed by generated cache-key strings and storing
what `cached_obj_get` puts there (the `obj_get` result). -/
abbrev Cache := List (String × Obj)

/-- `cached_obj_get`, translated faithfully: the cache key is generated
from the stripped kwargs; on a miss the object is fetched via `obj_get`
and stored; the function returns the local variable `bundle`, which on a
hit is still the *input* bundle (the cached value is read but discarded).
`generate_cache_key` is an external collaborator. -/
def cached_obj_get (schema : Schema) (objs : List Obj)
    (genKey : Kwargs KV → String) (cache : Cache) (bundle : Bundle)
    (kwargs : Kwargs KV) : Except GetErr (BundleOrObj × Cache) :=
  match cache.lookup (genKey (real_remove_api_resource_names kwargs)) with
  | some _ => Except.ok (BundleOrObj.bnd bundle, cache)
  | none =>
    match obj_get schema objs kwargs with
    | Except.error e => Except.error e
    | Except.ok o =>
        Except.ok (BundleOrObj.obj o,
          dictSet cache (genKey (real_remove_api_resource_names kwargs)) o)

/-- The HTTP-shaped outcomes of `get_detail`.  `r200` carries the value
serialized (the external dehydration pipeline is modelled by carrying the
object); `hitBundle` records the anomalous cache-hit path in which
`cached_obj_get` hands back the basic bundle instead of an object. -/
inductive DetailResp where
  | r200 : KV → DetailResp
  | httpNotFound
  | httpMultipleChoices
  | uncaughtNotFound
  | hitBundle : Bundle → DetailResp
deriving DecidableEq, Repr

/-- `get_detail`: serves a pre-resolved `child_object` if present (404 when
it is `None`), otherwise fetches via `cached_obj_get` (through the no-op
`remove_api_resource_names`), mapping `DoesNotExist` to 404 and
`MultipleObjectsReturned` to 300; tastypie's `NotFound` is not caught
here. -/
def get_detail (schema : Schema) (objs : List Obj)
    (genKey : Kwargs KV → String) (cache : Cache) (kwargs : Kwargs KV) :
    DetailResp × Cache :=
  if containsKey kwargs "child_object" then
    match kwargs.lookup "child_object" with
    | some (KV.prim Prim.pnone) => (DetailResp.httpNotFound, cache)
    | some v => (DetailResp.r200 v, cache)
    | none => (DetailResp.httpNotFound, cache)
  else
    match cached_obj_get schema objs genKey cache (Bundle.mk none)
        (remove_api_resource_names kwargs) with
    | Except.error GetErr.doesNotExist => (DetailResp.httpNotFound, cache)
    | Except.error GetErr.multipleObjectsReturned =>
        (DetailResp.httpMultipleChoices, cache)
    | Except.error GetErr.notFound => (DetailResp.uncaughtNotFound, cache)
    | Except.ok (BundleOrObj.obj o, c) => (DetailResp.r200 (KV.vobj o), c)
    | Except.ok (BundleOrObj.bnd b, c) => (DetailResp.hitBundle b, c)

/-- `hasattr(manager, 'all')`: in the model only a related manager exposes
a collection-query capability. -/
def hasAllAttr : KV → Bool
  | KV.vmgr _ => true
  | _ => false

/-- The kwargs-preparation tail of `dispatch_nested` (after the parent
object was obtained and the relation attribute resolved to `manager`):
attaches the parent context, then either dispatches `detail` with the
`child_object`, or dispatches `list` with the `related_manager` after
deleting the parent's `detail_uri_name` capture. -/
def dispatch_nested_prep (detailUriName nestedName : String)
    (kwargs : Kwargs KV) (obj : Obj) (manager : Option KV) :
    String × Kwargs KV :=
  let kw1 := dictSet kwargs "nested_name" (KV.prim (Prim.pstr nestedName))
  let kw2 := dictSet kw1 "parent_resource" KV.vres
  let kw3 := dictSet kw2 "parent_object" (KV.vobj obj)
  match manager with
  | none => ("detail", dictSet kw3 "child_object" (KV.prim Prim.pnone))
  | some m =>
    if hasAllAttr m then
      let kw4 := dictSet kw3 "related_manager" m
      ("list", if containsKey kw4 detailUriName then dictDel kw4 detailUriName
               else kw4)
    else ("detail", dictSet kw3 "child_object" m)

/-! ### Authorization selector

The authorization objects are external collaborators; what matters here is
which of their methods exist and get called.  `nestedLimits` maps method
names (`apply_limits_nested_<name>`) to the hook functions; a missing key
is `hasattr(...) == False`.  The generic types `Req` and `O` stand for the
request and the model-object type.
-/

/-- The parent resource's `_meta.authorization` object. -/
structure Authorization (Req O : Type) where
  nestedLimits : List (String × (Req → Option O → List O → List O))

/-- The parent resource, as seen by the authorization selector. -/
structure ParentResource (Req O : Type) where
  authorization : Authorization Req O

/-- The resource on which `apply_proper_authorization_limits` runs;
`applyAuthorizationLimits` is the inherited standard authorization-limiting
path (external). -/
structure SelfResource (Req O : Type) where
  applyAuthorizationLimits : Req → List O → List O

/-- Values found in the lookup-context kwargs consumed by the
authorization selector. -/
inductive AuthKV (Req O : Type) where
  | vres : ParentResource Req O → AuthKV Req O
  | vobj : O → AuthKV Req O
  | vstr : String → AuthKV Req O
  | vnone : AuthKV Req O

/-- Python `str(...)` of a kwargs value, as used when formatting the
conventional method name (only strings occur in real dispatch). -/
def kvFormat {Req O : Type} : AuthKV Req O → String
  | AuthKV.vstr s => s
  | AuthKV.vnone => "None"
  | AuthKV.vres _ => "resource"
  | AuthKV.vobj _ => "object"

/-- The `parent_object` value handed to a nested hook, converted to the
hook's argument type (an object or `None`). -/
def authParentObject {Req O : Type} : Option (AuthKV Req O) → Option O
  | some (AuthKV.vobj o) => some o
  | _ => none

/-- `apply_nested_authorization_limits`: looks up
`apply_limits_nested_<nested_name>` on the parent's authorization object
and applies it when present, otherwise returns the object list
unchanged. -/
def apply_nested_authorization_limits {Req O : Type} (request : Req)
    (object_list : List O) (parent_resource : ParentResource Req O)
    (parent_object : Option O) (nested_name : AuthKV Req O) : List O :=
  match parent_resource.authorization.nestedLimits.lookup
      ("apply_limits_nested_" ++ kvFormat nested_name) with
  | some method => method request parent_object object_list
  | none => object_list

/-- `apply_proper_authorization_limits`: chooses the nested hook path when
`parent_resource` is in the kwargs (and not `None`), else the resource's
own standard path.  The `Except.error` case is the `AttributeError` a
non-resource `parent_resource` value would raise. -/
def apply_proper_authorization_limits {Req O : Type}
    (self : SelfResource Req O) (request : Req) (object_list : List O)
    (kwargs : List (String × AuthKV Req O)) : Except Unit (List O) :=
  match kwargs.lookup "parent_resource" with
  | none => Except.ok (self.applyAuthorizationLimits request object_list)
  | some AuthKV.vnone =>
      Except.ok (self.applyAuthorizationLimits request object_list)
  | some (AuthKV.vres parent_resource) =>
      Except.ok (apply_nested_authorization_limits request object_list
        parent_resource
        (authParentObject (kwargs.lookup "parent_object"))
        ((kwargs.lookup "nested_name").getD AuthKV.vnone))
  | some _ => Except.error ()

/-! ### The detail-identifier pattern -/

/-- The literal pattern returned by `get_detail_uri_name_regex`. -/
def get_detail_uri_name_regex : String := "\\w[\\w-]*"

/-- A regex word character (Python `\w` without `re.UNICODE`). -/
def wordChar (c : Char) : Bool :=
  c.isAlpha || c.isDigit || c == '_'

/-- Full-match semantics of the character list against the pattern
`\w[\w-]*`: one word character, then word characters or hyphens. -/
def matchesWordHyphen : List Char → Bool
  | [] => false
  | c :: cs => wordChar c && cs.all (fun d => wordChar d || d == '-')

/-- Full-match semantics of `get_detail_uri_name_regex` on a string. -/
def matchesDetailUriNameRegex (s : String) : Bool :=
  matchesWordHyphen s.data

/-! ### Evaluation lemmas for the lookup operations -/

theorem ormFilter_malformed {schema : Schema} (objs : List Obj)
    {kw : Kwargs KV} (h : malformedKwargs schema kw = true) :
    ormFilter schema objs kw = Except.error () := by
  unfold ormFilter
  rw [if_pos h]

theorem ormFilter_ok {schema : Schema} (objs : List Obj) {kw : Kwargs KV}
    (h : malformedKwargs schema kw = false) :
    ormFilter schema objs kw = Except.ok (objs.filter (matchesAll schema kw)) := by
  unfold ormFilter
  rw [if_neg (by simp [h])]

theorem obj_get_eval {schema : Schema} {objs : List Obj} {kwargs : Kwargs KV}
    {l : List Obj}
    (hfil : ormFilter schema objs (real_remove_api_resource_names kwargs)
      = Except.ok l) :
    obj_get schema objs kwargs
      = if l.length ≤ 0 then Except.error GetErr.doesNotExist
        else if l.length > 1 then Except.error GetErr.multipleObjectsReturned
        else Except.ok (l.headD []) := by
  unfold obj_get
  rw [hfil]

theorem obj_get_no_auth_check_eval {schema : Schema} {objs : List Obj}
    {kwargs : Kwargs KV} {l : List Obj}
    (hfil : ormFilter schema objs kwargs = Except.ok l) :
    obj_get_no_auth_check schema objs kwargs
      = if l.length ≤ 0 then Except.error GetErr.doesNotExist
        else if l.length > 1 then Except.error GetErr.multipleObjectsReturned
        else Except.ok (l.headD []) := by
  unfold obj_get_no_auth_check
  rw [hfil]

theorem cached_obj_get_miss {schema : Schema} {objs : List Obj}
    {genKey : Kwargs KV → String} {cache : Cache} (bundle : Bundle)
    {kwargs : Kwargs KV}
    (hmiss : cache.lookup (genKey (real_remove_api_resource_names kwargs))
      = none) :
    cached_obj_get schema objs genKey cache bundle kwargs
      = match obj_get schema objs kwargs with
        | Except.error e => Except.error e
        | Except.ok o =>
            Except.ok (BundleOrObj.obj o,
              dictSet cache (genKey (real_remove_api_resource_names kwargs)) o) := by
  unfold cached_obj_get
  rw [hmiss]

theorem get_detail_no_child {schema : Schema} {objs : List Obj}
    {genKey : Kwargs KV → String} {cache : Cache} {kwargs : Kwargs KV}
    (hchild : kwargs.lookup "child_object" = none) :
    get_detail schema objs genKey cache kwargs
      = match cached_obj_get schema objs genKey cache (Bundle.mk none) kwargs with
        | Except.error GetErr.doesNotExist => (DetailResp.httpNotFound, cache)
        | Except.error GetErr.multipleObjectsReturned =>
            (DetailResp.httpMultipleChoices, cache)
        | Except.error GetErr.notFound => (DetailResp.uncaughtNotFound, cache)
        | Except.ok (BundleOrObj.obj o, c) => (DetailResp.r200 (KV.vobj o), c)
        | Except.ok (BundleOrObj.bnd b, c) => (DetailResp.hitBundle b, c) := by
  have hcontains : containsKey kwargs "child_object" = false := by
    unfold containsKey
    rw [hchild]
    rfl
  unfold get_detail
  rw [hcontains]
  rfl

/-! ### Claim theorems -/

/-- C9: the overridden public `remove_api_resource_names` is the identity
on dictionary contents — it strips neither `api_name`/`resource_name` nor
any synthetic key; stripping happens only in
`real_remove_api_resource_names`. -/
theorem C9_remove_api_resource_names_is_identity {V : Type}
    (url_dict : Kwargs V) (k : String) (v : V) :
    remove_api_resource_names url_dict = url_dict
  ∧ (remove_api_resource_names url_dict).lookup k = url_dict.lookup k
  ∧ remove_api_resource_names [("api_name", v)] = [("api_name", v)]
  ∧ real_remove_api_resource_names [("api_name", v)] = ([] : Kwargs V) := by
  refine ⟨rfl, rfl, rfl, ?_⟩
  rfl

/-- C1: every CRUD wrapper strips the synthetic bookkeeping keys (and
`api_name`/`resource_name`) before the kwargs are handed to the underlying
query/filter call: the wrappers delegate exactly the stripped dictionary,
the stripped dictionary binds no synthetic key, the `filters` dictionary of
`obj_get_list` binds no synthetic key, and `obj_get`/`cached_obj_get` are
insensitive to pre-stripping their kwargs. -/
theorem C1_crud_wrappers_strip_synthetic_keys {V B R : Type}
    (fC : B → Kwargs V → R) (fU : B → Bool → Kwargs V → R)
    (fD fDL : B → Kwargs V → R) (b : B) (skip_errors : Bool)
    (schema : Schema) (objs : List Obj) (genKey : Kwargs KV → String)
    (cache : Cache) (bundle : Bundle)
    (kwargs getParams : Kwargs V) (kwargsKV : Kwargs KV) (k : String)
    (hk : k ∈ syntheticKeys) (hget : getParams.lookup k = none) :
    (real_remove_api_resource_names kwargs).lookup k = none
  ∧ obj_create fC b kwargs = fC b (real_remove_api_resource_names kwargs)
  ∧ obj_update fU b skip_errors kwargs
      = fU b skip_errors (real_remove_api_resource_names kwargs)
  ∧ obj_delete fD b kwargs = fD b (real_remove_api_resource_names kwargs)
  ∧ obj_delete_list fDL b kwargs
      = fDL b (real_remove_api_resource_names kwargs)
  ∧ (obj_get_list_filters getParams kwargs).lookup k = none
  ∧ obj_get schema objs kwargsKV
      = obj_get schema objs (real_remove_api_resource_names kwargsKV)
  ∧ cached_obj_get schema objs genKey cache bundle kwargsKV
      = cached_obj_get schema objs genKey cache bundle
          (real_remove_api_resource_names kwargsKV) := by
  have hog : obj_get schema objs kwargsKV
      = obj_get schema objs (real_remove_api_resource_names kwargsKV) := by
    unfold obj_get
    rw [real_remove_idem]
  refine ⟨real_remove_lookup_none _ hk, rfl, rfl, rfl, rfl, ?_, hog, ?_⟩
  · unfold obj_get_list_filters
    exact lookup_dictUpdate_none hget (real_remove_lookup_none _ hk)
  · unfold cached_obj_get
    rw [real_remove_idem, hog]

/-- C1 witness: at a concrete kwargs dictionary carrying
`parent_resource`, the stripped dictionary and the `obj_get_list` filters
dictionary no longer bind it. -/
theorem C1_crud_wrappers_strip_synthetic_keys_witness :
    (real_remove_api_resource_names
        ([("parent_resource", 0), ("pk", 1)] : Kwargs Nat)).lookup
        "parent_resource" = none
  ∧ (obj_get_list_filters ([] : Kwargs Nat)
        [("parent_resource", 0), ("pk", 1)]).lookup "parent_resource"
      = none := by
  have h := C1_crud_wrappers_strip_synthetic_keys
    (fun (_ : Unit) (kw : Kwargs Nat) => kw) (fun _ _ kw => kw)
    (fun _ kw => kw) (fun _ kw => kw) () true [] [] (fun _ => "K") []
    (Bundle.mk none) [("parent_resource", 0), ("pk", 1)] []
    [("parent_resource", KV.vres)] "parent_resource" (by decide) rfl
  exact ⟨h.1, h.2.2.2.2.2.1⟩

/-- C5: `post_list`, `put_list` and `patch_list` raise
`NotImplementedError` exactly when `parent_resource` is among the kwargs,
and otherwise delegate the kwargs unchanged to the base implementation. -/
theorem C5_nested_list_mutation_refused {V R : Type}
    (fpo fpu fpa : Kwargs V → R) (kwargs : Kwargs V) :
    (containsKey kwargs "parent_resource" = true →
      post_list fpo kwargs = Except.error NotImplementedSignal.notImplemented
      ∧ put_list fpu kwargs = Except.error NotImplementedSignal.notImplemented
      ∧ patch_list fpa kwargs
          = Except.error NotImplementedSignal.notImplemented)
  ∧ (containsKey kwargs "parent_resource" = false →
      post_list fpo kwargs = Except.ok (fpo kwargs)
      ∧ put_list fpu kwargs = Except.ok (fpu kwargs)
      ∧ patch_list fpa kwargs = Except.ok (fpa kwargs)) := by
  constructor <;> intro h <;>
    exact ⟨by simp [post_list, h], by simp [put_list, h],
           by simp [patch_list, h]⟩

/-- C5 witness: a nested call is refused, a plain call delegates. -/
theorem C5_nested_list_mutation_refused_witness :
    post_list (fun kw => kw) ([("parent_resource", 0)] : Kwargs Nat)
      = Except.error NotImplementedSignal.notImplemented
  ∧ post_list (fun kw => kw) ([("pk", 1)] : Kwargs Nat)
      = Except.ok [("pk", 1)] := by
  refine ⟨?_, ?_⟩
  · exact ((C5_nested_list_mutation_refused (fun kw => kw) (fun kw => kw)
      (fun kw => kw) [("parent_resource", 0)]).1 rfl).1
  · exact ((C5_nested_list_mutation_refused (fun kw => kw) (fun kw => kw)
      (fun kw => kw) [("pk", 1)]).2 rfl).1

/-- The object sitting in the cache in the C6 scenario. -/
def c6CachedObj : Obj := [("id", Prim.pint 1)]

/-- C6: on a cache hit `cached_obj_get` returns its *input* bundle, not
the cached value — the cached object is read and discarded (the local
variable `bundle` is only reassigned on a miss), contradicting the
method's stated purpose of serving commonly-accessed data from the
cache. -/
theorem C6_cache_hit_discards_cached_value :
    cached_obj_get [] [] (fun _ => "K") [("K", c6CachedObj)]
        (Bundle.mk none) []
      = Except.ok (BundleOrObj.bnd (Bundle.mk none), [("K", c6CachedObj)])
  ∧ ([("K", c6CachedObj)] : Cache).lookup "K" = some c6CachedObj
  ∧ BundleOrObj.bnd (Bundle.mk none) ≠ BundleOrObj.obj c6CachedObj := by
  refine ⟨rfl, rfl, ?_⟩
  intro h
  exact BundleOrObj.noConfusion h

/-- C2: with the lookup kwargs stripped, exactly one match makes `obj_get`
return that object and `get_detail` (on the cache-miss path built on it)
serve it as a 200 response while caching it; zero matches surface
`DoesNotExist`/404; several matches surface
`MultipleObjectsReturned`/300. -/
theorem C2_detail_lookup_cardinality (schema : Schema) (objs : List Obj)
    (genKey : Kwargs KV → String) (cache : Cache) (kwargs : Kwargs KV)
    (l : List Obj)
    (hchild : kwargs.lookup "child_object" = none)
    (hmiss : cache.lookup (genKey (real_remove_api_resource_names kwargs))
      = none)
    (hfil : ormFilter schema objs (real_remove_api_resource_names kwargs)
      = Except.ok l) :
    (l.length = 1 →
      obj_get schema objs kwargs = Except.ok (l.headD [])
      ∧ get_detail schema objs genKey cache kwargs
        = (DetailResp.r200 (KV.vobj (l.headD [])),
           dictSet cache (genKey (real_remove_api_resource_names kwargs))
             (l.headD [])))
  ∧ (l.length = 0 →
      obj_get schema objs kwargs = Except.error GetErr.doesNotExist
      ∧ get_detail schema objs genKey cache kwargs
        = (DetailResp.httpNotFound, cache))
  ∧ (l.length > 1 →
      obj_get schema objs kwargs
        = Except.error GetErr.multipleObjectsReturned
      ∧ get_detail schema objs genKey cache kwargs
        = (DetailResp.httpMultipleChoices, cache)) := by
  refine ⟨?_, ?_, ?_⟩ <;> intro hlen
  · have hog : obj_get schema objs kwargs = Except.ok (l.headD []) := by
      rw [obj_get_eval hfil, if_neg (by omega), if_neg (by omega)]
    refine ⟨hog, ?_⟩
    rw [get_detail_no_child hchild, cached_obj_get_miss (Bundle.mk none) hmiss,
      hog]
  · have hog : obj_get schema objs kwargs
        = Except.error GetErr.doesNotExist := by
      rw [obj_get_eval hfil, if_pos (by omega)]
    refine ⟨hog, ?_⟩
    rw [get_detail_no_child hchild, cached_obj_get_miss (Bundle.mk none) hmiss,
      hog]
  · have hog : obj_get schema objs kwargs
        = Except.error GetErr.multipleObjectsReturned := by
      rw [obj_get_eval hfil, if_neg (by omega), if_pos (by omega)]
    refine ⟨hog, ?_⟩
    rw [get_detail_no_child hchild, cached_obj_get_miss (Bundle.mk none) hmiss,
      hog]

/-- C2 witness: the three cardinalities at concrete stores. -/
theorem C2_detail_lookup_cardinality_witness :
    (obj_get [] [[("pk", Prim.pint 7)]] [("pk", KV.prim (Prim.pint 7))]
        = Except.ok [("pk", Prim.pint 7)]
      ∧ get_detail [] [[("pk", Prim.pint 7)]] (fun _ => "K") []
          [("pk", KV.prim (Prim.pint 7))]
        = (DetailResp.r200 (KV.vobj [("pk", Prim.pint 7)]),
           [("K", [("pk", Prim.pint 7)])]))
  ∧ (obj_get [] [] [("pk", KV.prim (Prim.pint 7))]
        = Except.error GetErr.doesNotExist
      ∧ get_detail [] [] (fun _ => "K") [] [("pk", KV.prim (Prim.pint 7))]
        = (DetailResp.httpNotFound, []))
  ∧ (obj_get [] [[("pk", Prim.pint 7)], [("pk", Prim.pint 7)]]
        [("pk", KV.prim (Prim.pint 7))]
        = Except.error GetErr.multipleObjectsReturned
      ∧ get_detail [] [[("pk", Prim.pint 7)], [("pk", Prim.pint 7)]]
          (fun _ => "K") [] [("pk", KV.prim (Prim.pint 7))]
        = (DetailResp.httpMultipleChoices, [])) := by
  refine ⟨?_, ?_, ?_⟩
  · exact (C2_detail_lookup_cardinality [] [[("pk", Prim.pint 7)]]
      (fun _ => "K") [] [("pk", KV.prim (Prim.pint 7))]
      [[("pk", Prim.pint 7)]] rfl rfl rfl).1 rfl
  · exact (C2_detail_lookup_cardinality [] [] (fun _ => "K") []
      [("pk", KV.prim (Prim.pint 7))] [] rfl rfl rfl).2.1 rfl
  · exact (C2_detail_lookup_cardinality []
      [[("pk", Prim.pint 7)], [("pk", Prim.pint 7)]] (fun _ => "K") []
      [("pk", KV.prim (Prim.pint 7))]
      [[("pk", Prim.pint 7)], [("pk", Prim.pint 7)]] rfl rfl rfl).2.2
      (by decide)

/-- C7: a `ValueError` raised by a malformed lookup value surfaces as
`http.BadRequest` from `obj_get_list`, and as tastypie `NotFound` from
`obj_get` and `obj_get_no_auth_check`; no raw `ValueError` escapes (the
result types of the three operations have no such constructor). -/
theorem C7_value_error_surfaces_as_http (schema : Schema) (objs : List Obj)
    (buildFilters : Kwargs KV → Kwargs KV)
    (authorizedReadList : List Obj → List Obj)
    (getParams kwargsList kwargsDetail kwargsNoAuth : Kwargs KV) :
    (malformedKwargs schema
        (buildFilters (obj_get_list_filters getParams kwargsList)) = true →
      obj_get_list schema objs buildFilters authorizedReadList getParams
        kwargsList = Except.error ListErr.badRequest)
  ∧ (malformedKwargs schema (real_remove_api_resource_names kwargsDetail)
        = true →
      obj_get schema objs kwargsDetail = Except.error GetErr.notFound)
  ∧ (malformedKwargs schema kwargsNoAuth = true →
      obj_get_no_auth_check schema objs kwargsNoAuth
        = Except.error GetErr.notFound) := by
  refine ⟨?_, ?_, ?_⟩ <;> intro h
  · unfold obj_get_list
    rw [ormFilter_malformed objs h]
  · unfold obj_get
    rw [ormFilter_malformed objs h]
  · unfold obj_get_no_auth_check
    rw [ormFilter_malformed objs h]

/-- C7 witness: filtering an integer field by the non-numeric string
`abc` is refused on every path. -/
theorem C7_value_error_surfaces_as_http_witness :
    obj_get_list [("pk", FieldTy.tint)] [] id id []
        [("pk", KV.prim (Prim.pstr "abc"))] = Except.error ListErr.badRequest
  ∧ obj_get [("pk", FieldTy.tint)] [] [("pk", KV.prim (Prim.pstr "abc"))]
      = Except.error GetErr.notFound
  ∧ obj_get_no_auth_check [("pk", FieldTy.tint)] []
      [("pk", KV.prim (Prim.pstr "abc"))] = Except.error GetErr.notFound := by
  have h := C7_value_error_surfaces_as_http [("pk", FieldTy.tint)] [] id id
    [] [("pk", KV.prim (Prim.pstr "abc"))]
    [("pk", KV.prim (Prim.pstr "abc"))] [("pk", KV.prim (Prim.pstr "abc"))]
  exact ⟨h.1 rfl, h.2.1 rfl, h.2.2 rfl⟩

/-- C10: `obj_get_no_auth_check` passes its kwargs into the filter call
unmodified — every binding, synthetic or not, constrains the query (so any
returned object satisfies it) — and `get_via_uri_no_auth_check` forwards
the resolved URI kwargs through the no-op `remove_api_resource_names`
without stripping anything. -/
theorem C10_no_auth_check_passes_kwargs_unmodified (schema : Schema)
    (objs : List Obj) (kwargs : Kwargs KV) (k : String) (v : KV) (o : Obj)
    (hin : (k, v) ∈ kwargs)
    (hok : obj_get_no_auth_check schema objs kwargs = Except.ok o) :
    matchesEntry schema o k v = true
  ∧ get_via_uri_no_auth_check schema objs kwargs
      = obj_get_no_auth_check schema objs kwargs := by
  refine ⟨?_, rfl⟩
  unfold obj_get_no_auth_check at hok
  cases hf : ormFilter schema objs kwargs with
  | error e => rw [hf] at hok; exact Except.noConfusion hok
  | ok l =>
    rw [hf] at hok
    simp only [] at hok
    by_cases h0 : l.length ≤ 0
    · rw [if_pos h0] at hok; exact Except.noConfusion hok
    · rw [if_neg h0] at hok
      by_cases h1 : l.length > 1
      · rw [if_pos h1] at hok; exact Except.noConfusion hok
      · rw [if_neg h1] at hok
        have ho : l.headD [] = o := by injection hok
        have hmem : l.headD [] ∈ l := by
          cases l with
          | nil => simp at h0
          | cons a t => simp [List.headD]
        unfold ormFilter at hf
        by_cases hm : malformedKwargs schema kwargs = true
        · rw [if_pos hm] at hf; exact Except.noConfusion hf
        · rw [if_neg hm] at hf
          have hl : l = objs.filter (matchesAll schema kwargs) := by
            injection hf with hf2
            exact hf2.symm
          rw [hl] at hmem ho
          have hall := (List.mem_filter.mp hmem).2
          rw [ho] at hall
          unfold matchesAll at hall
          exact List.all_eq_true.mp hall (k, v) hin

/-- C10 witness: a `resource_name` binding left in the kwargs reaches the
query layer and constrains the single returned object. -/
theorem C10_no_auth_check_passes_kwargs_unmodified_witness :
    matchesEntry [] [("resource_name", Prim.pstr "user")] "resource_name"
        (KV.prim (Prim.pstr "user")) = true
  ∧ get_via_uri_no_auth_check [] [[("resource_name", Prim.pstr "user")]]
        [("resource_name", KV.prim (Prim.pstr "user"))]
      = obj_get_no_auth_check [] [[("resource_name", Prim.pstr "user")]]
        [("resource_name", KV.prim (Prim.pstr "user"))] := by
  exact C10_no_auth_check_passes_kwargs_unmodified []
    [[("resource_name", Prim.pstr "user")]]
    [("resource_name", KV.prim (Prim.pstr "user"))] "resource_name"
    (KV.prim (Prim.pstr "user")) [("resource_name", Prim.pstr "user")]
    (by decide) rfl

/-- A parent resource with no nested authorization hooks. -/
def c3ParentResource : ParentResource Unit Nat :=
  ParentResource.mk (Authorization.mk [])

/-- A resource whose standard authorization path filters everything out. -/
def c3Self : SelfResource Unit Nat :=
  SelfResource.mk (fun _ _ => [])

/-- A nested lookup context naming `c3ParentResource`. -/
def c3Kwargs : List (String × AuthKV Unit Nat) :=
  [("parent_resource", AuthKV.vres c3ParentResource),
   ("nested_name", AuthKV.vstr "children")]

/-- C3 counterexample: with `parent_resource` present but no
`apply_limits_nested_children` hook on the parent's authorization object,
`apply_proper_authorization_limits` returns the object list unchanged — it
does **not** fall back to the resource's own standard
authorization-limiting path, which here would have emptied the list. -/
theorem C3_counterexample :
    apply_proper_authorization_limits c3Self () [1] c3Kwargs
      = Except.ok [1]
  ∧ c3Self.applyAuthorizationLimits () [1] = []
  ∧ apply_proper_authorization_limits c3Self () [1] c3Kwargs
      ≠ Except.ok (c3Self.applyAuthorizationLimits () [1]) := by
  refine ⟨rfl, rfl, ?_⟩
  intro h
  rw [show apply_proper_authorization_limits c3Self () [1] c3Kwargs
      = Except.ok [1] from rfl] at h
  rw [show c3Self.applyAuthorizationLimits () [1] = ([] : List Nat)
      from rfl] at h
  simp at h

/-- C3 (amended): if `parent_resource` is absent (or bound to `None`), the
resource's own standard authorization-limiting path applies; if it is a
parent resource whose authorization object has the conventional
`apply_limits_nested_<nested_name>` method, that method is applied to
(request, parent_object, object_list); if the parent has no such method,
the object list is returned unchanged (no standard-path fallback). -/
theorem C3_authorization_selector_cases {Req O : Type}
    (self : SelfResource Req O) (request : Req) (object_list : List O)
    (kwargs : List (String × AuthKV Req O)) :
    (kwargs.lookup "parent_resource" = none →
      apply_proper_authorization_limits self request object_list kwargs
        = Except.ok (self.applyAuthorizationLimits request object_list))
  ∧ (kwargs.lookup "parent_resource" = some AuthKV.vnone →
      apply_proper_authorization_limits self request object_list kwargs
        = Except.ok (self.applyAuthorizationLimits request object_list))
  ∧ (∀ pr method,
      kwargs.lookup "parent_resource" = some (AuthKV.vres pr) →
      pr.authorization.nestedLimits.lookup
        ("apply_limits_nested_"
          ++ kvFormat ((kwargs.lookup "nested_name").getD AuthKV.vnone))
        = some method →
      apply_proper_authorization_limits self request object_list kwargs
        = Except.ok (method request
            (authParentObject (kwargs.lookup "parent_object")) object_list))
  ∧ (∀ pr,
      kwargs.lookup "parent_resource" = some (AuthKV.vres pr) →
      pr.authorization.nestedLimits.lookup
        ("apply_limits_nested_"
          ++ kvFormat ((kwargs.lookup "nested_name").getD AuthKV.vnone))
        = none →
      apply_proper_authorization_limits self request object_list kwargs
        = Except.ok object_list) := by
  refine ⟨?_, ?_, ?_, ?_⟩
  · intro h
    unfold apply_proper_authorization_limits
    rw [h]
  · intro h
    unfold apply_proper_authorization_limits
    rw [h]
  · intro pr method h hm
    simp only [apply_proper_authorization_limits, h,
      apply_nested_authorization_limits, hm]
  · intro pr h hm
    simp only [apply_proper_authorization_limits, h,
      apply_nested_authorization_limits, hm]

/-- A concrete nested authorization hook: keep only entries above 1. -/
def c3Hook : Unit → Option Nat → List Nat → List Nat :=
  fun _ _ l => l.filter (fun n => 1 < n)

/-- A parent resource carrying the `apply_limits_nested_children` hook. -/
def c3HookParent : ParentResource Unit Nat :=
  ParentResource.mk (Authorization.mk [("apply_limits_nested_children", c3Hook)])

/-- C3 witness: the hook path and the no-hook path at concrete inputs. -/
theorem C3_authorization_selector_cases_witness :
    apply_proper_authorization_limits c3Self () [1, 2]
        [("parent_resource", AuthKV.vres c3HookParent),
         ("nested_name", AuthKV.vstr "children")]
      = Except.ok [2]
  ∧ apply_proper_authorization_limits c3Self () [1, 2]
        ([] : List (String × AuthKV Unit Nat))
      = Except.ok [] := by
  constructor
  · exact (C3_authorization_selector_cases c3Self () [1, 2]
      [("parent_resource", AuthKV.vres c3HookParent),
       ("nested_name", AuthKV.vstr "children")]).2.2.1 c3HookParent c3Hook
      rfl rfl
  · exact (C3_authorization_selector_cases c3Self () [1, 2]
      ([] : List (String × AuthKV Unit Nat))).1 rfl

/-- The value of an `if` never deletes an unrelated key: looking up
`related_manager` after the optional `del kwargs[detail_uri_name]`. -/
theorem lookup_after_optional_del {V : Type} (d : Kwargs V) (m : V)
    (dun : String) (h : dun ≠ "related_manager") (c : Bool) :
    (if c = true then dictDel (dictSet d "related_manager" m) dun
     else dictSet d "related_manager" m).lookup "related_manager"
      = some m := by
  cases c with
  | true =>
    rw [if_pos rfl, lookup_dictDel_ne _ (fun he => h he.symm),
      lookup_dictSet_self]
  | false =>
    rw [if_neg (by simp), lookup_dictSet_self]

/-- C4: when the declared relation resolves to a collection (the manager
has an `all` attribute), `dispatch_nested` dispatches `list` with the
`related_manager` attached, and `obj_get_list` then narrows the already
filter-applied base list by the manager's `core_filters` — every object
served satisfies both the resource's own filters (membership in the base
list) and the parent-tying core filters. -/
theorem C4_nested_collection_applies_core_filters (schema : Schema)
    (objs base : List Obj) (buildFilters : Kwargs KV → Kwargs KV)
    (authorizedReadList : List Obj → List Obj)
    (getParams kwargs prepKwargs : Kwargs KV)
    (core_filters : List (String × Prim))
    (detailUriName nestedName : String) (parentObj : Obj)
    (hmgr : kwargs.lookup "related_manager"
      = some (KV.vmgr core_filters))
    (hbase : ormFilter schema objs
        (buildFilters (obj_get_list_filters getParams kwargs))
      = Except.ok base)
    (hcf : malformedKwargs schema (coreFiltersKV core_filters) = false)
    (hdun : detailUriName ≠ "related_manager") :
    obj_get_list schema objs buildFilters authorizedReadList getParams kwargs
      = Except.ok (authorizedReadList
          (base.filter (matchesAll schema (coreFiltersKV core_filters))))
  ∧ (∀ o ∈ base.filter (matchesAll schema (coreFiltersKV core_filters)),
      o ∈ base ∧ matchesAll schema (coreFiltersKV core_filters) o = true)
  ∧ (dispatch_nested_prep detailUriName nestedName prepKwargs parentObj
      (some (KV.vmgr core_filters))).1 = "list"
  ∧ ((dispatch_nested_prep detailUriName nestedName prepKwargs parentObj
      (some (KV.vmgr core_filters))).2).lookup "related_manager"
      = some (KV.vmgr core_filters) := by
  have hck : containsKey kwargs "related_manager" = true := by
    unfold containsKey
    rw [hmgr]
    rfl
  refine ⟨?_, ?_, ?_, ?_⟩
  · simp only [obj_get_list, hbase, hck, if_true, hmgr,
      ormFilter_ok base hcf]
  · intro o ho
    exact ⟨(List.mem_filter.mp ho).1, (List.mem_filter.mp ho).2⟩
  · simp only [dispatch_nested_prep, hasAllAttr, if_true]
  · simp only [dispatch_nested_prep, hasAllAttr, if_true]
    exact lookup_after_optional_del _ _ _ hdun _

/-- An object of the C4 witness store matching both filter layers. -/
def c4Obj1 : Obj := [("a", Prim.pint 1), ("b", Prim.pint 2)]

/-- An object of the C4 witness store matching only the resource's own
filter. -/
def c4Obj2 : Obj := [("a", Prim.pint 1), ("b", Prim.pint 3)]

/-- C4 witness: a concrete nested list call narrows the base list by the
manager's core filters. -/
theorem C4_nested_collection_applies_core_filters_witness :
    obj_get_list [] [c4Obj1, c4Obj2] id id []
        [("a", KV.prim (Prim.pint 1)),
         ("related_manager", KV.vmgr [("b", Prim.pint 2)])]
      = Except.ok [c4Obj1]
  ∧ (dispatch_nested_prep "pk" "children" [] [] 
      (some (KV.vmgr [("b", Prim.pint 2)]))).1 = "list" := by
  have h := C4_nested_collection_applies_core_filters [] [c4Obj1, c4Obj2]
    [c4Obj1, c4Obj2] id id []
    [("a", KV.prim (Prim.pint 1)),
     ("related_manager", KV.vmgr [("b", Prim.pint 2)])]
    [] [("b", Prim.pint 2)] "pk" "children" [] rfl rfl rfl (by decide)
  exact ⟨h.1, h.2.2.1⟩

/-- C8 counterexample: `-a` is a non-empty string made only of word
characters and hyphens, yet the default pattern `\w[\w-]*` rejects it (the
first character must be a word character, not a hyphen). -/
theorem C8_counterexample :
    get_detail_uri_name_regex = "\\w[\\w-]*"
  ∧ "-a" ≠ ""
  ∧ "-a".data.all (fun c => wordChar c || c == '-') = true
  ∧ matchesDetailUriNameRegex "-a" = false := by
  refine ⟨rfl, by decide, by decide, by decide⟩

/-- C8 (amended): the default detail-identifier pattern `\w[\w-]*` accepts
exactly the strings consisting of a word character followed by word
characters and hyphens (still overridable per resource via
`get_detail_uri_name_regex`). -/
theorem C8_detail_uri_regex_characterization (s : String) :
    matchesDetailUriNameRegex s = true ↔
      (∃ c cs, s.data = c :: cs ∧ wordChar c = true
        ∧ cs.all (fun d => wordChar d || d == '-') = true) := by
  constructor
  · intro h
    unfold matchesDetailUriNameRegex at h
    cases hs : s.data with
    | nil =>
      rw [hs] at h
      exact absurd h (by simp [matchesWordHyphen])
    | cons c cs =>
      rw [hs] at h
      unfold matchesWordHyphen at h
      rw [Bool.and_eq_true] at h
      exact ⟨c, cs, rfl, h.1, h.2⟩
  · rintro ⟨c, cs, hs, hc, hcs⟩
    unfold matchesDetailUriNameRegex
    rw [hs]
    unfold matchesWordHyphen
    rw [Bool.and_eq_true]
    exact ⟨hc, hcs⟩

/-- C8 witness: a hyphen-bearing identifier with a leading word character
matches the pattern. -/
theorem C8_detail_uri_regex_characterization_witness :
    matchesDetailUriNameRegex "ab-c_9" = true := by
  exact (C8_detail_uri_regex_characterization "ab-c_9").mpr
    ⟨'a', "b-c_9".data, by decide, by decide, by decide⟩

end ExtendedModelResource
